import Mathlib

/-!
Shallow embedding of the `eventflow-commerce` notification service
(`src/services/notification/`): the environment-variable config loader
(`notification/config/config.py`), the HTTP application and entry point
(`notification/main.py`), and the duplicate top-level module (`main.py`).

The process environment is modelled as an association list of
variable-name/value pairs.  The binding semantics of the settings library
(pydantic-settings) for the options declared in `Config.model_config` —
name head `NOTIFICATION_`, nested-field delimiter `_`, case-insensitive
names — are embedded explicitly: a nested field such as `server.port` is
read from the variable obtained by joining the head and the field path
with `_`, matched against the environment without regard to letter case.
-/

namespace Notification

/-- A process environment: an association list of variable names to values.
The first binding whose name matches (case-insensitively) wins, mirroring
the fact that an OS environment holds at most one binding per name. -/
abbrev Env := List (String × String)

/-- Lowercasing of a variable name, as Python's `str.lower` applied by the
settings library to both sides of a name comparison. -/
def lowerName (s : String) : String := ⟨s.data.map Char.toLower⟩

/-- Case-insensitive lookup of a variable in the environment, as performed
by the settings library when `case_sensitive=False`
(config.py line 16): both the stored name and the requested
name are lowercased before comparison. -/
def lookupEnv : Env → String → Option String
  | [], _ => none
  | (k, v) :: rest, key =>
    if lowerName k = lowerName key then some v else lookupEnv rest key

/-- The environment-variable name bound to a nested field path, per
`Config.model_config` (config.py lines 13-17): the fixed name head
`NOTIFICATION_` followed by the path components joined by the
nested-field delimiter `_`. -/
def envKey (path : List String) : String :=
  "notification_" ++ String.intercalate "_" path

/-- Variable name consulted for the `server.host` field. -/
def server_host_key : String := envKey ["server", "host"]

/-- Variable name consulted for the `server.port` field. -/
def server_port_key : String := envKey ["server", "port"]

/-- `ServerConfig` (config.py lines 5-7): bind host with default
`"0.0.0.0"`, and a required integer port with no default. -/
structure ServerConfig where
  host : String
  port : Int
deriving Repr, DecidableEq

/-- `Config` (config.py lines 10-17): the settings object, holding the
single nested `server` section. -/
structure Config where
  server : ServerConfig
deriving Repr, DecidableEq

/-- The error raised when settings validation fails (the spec's
`ConfigError` taxonomy; in the source, the validation error raised by
constructing `Config()`): either the required field's variable is absent,
or its value does not parse as an integer. -/
inductive ConfigError where
  | missingField (field : String)
  | invalidInt (field : String) (value : String)
deriving Repr, DecidableEq

/-- Parse a nonempty run of decimal digits, accumulating the value;
any non-digit character makes the whole parse fail. -/
def parseNatAux : List Char → Nat → Option Nat
  | [], acc => some acc
  | c :: cs, acc =>
    if c.isDigit then parseNatAux cs (acc * 10 + (c.toNat - 48)) else none

/-- Integer parsing applied to the raw string value of the port variable,
as the settings library coerces an environment string to the declared
`int` field type: an optional leading minus sign followed by one or more
decimal digits. -/
def parseInt (s : String) : Option Int :=
  match s.data with
  | [] => none
  | '-' :: [] => none
  | '-' :: c :: cs => (parseNatAux (c :: cs) 0).map (fun n => -(n : Int))
  | cs => (parseNatAux cs 0).map (fun n => (n : Int))

/-- `load_config` (config.py lines 20-22): construct the settings object
from the environment.  `server.host` falls back to its declared default
`"0.0.0.0"` when its variable is absent; `server.port` is required and
must parse as an integer, otherwise validation fails. -/
def load_config (env : Env) : Except ConfigError Config :=
  let host := (lookupEnv env server_host_key).getD "0.0.0.0"
  match lookupEnv env server_port_key with
  | none => Except.error (ConfigError.missingField "server.port")
  | some v =>
    match parseInt v with
    | none => Except.error (ConfigError.invalidInt "server.port" v)
    | some p => Except.ok { server := { host := host, port := p } }

/-- An HTTP request as seen by the application: method, path, headers and
body.  The handlers of this service consult only the method and path. -/
structure Request where
  method : String
  path : String
  headers : List (String × String)
  body : String
deriving Repr, DecidableEq

/-- A response body: either a JSON object with string fields, or the
Prometheus exposition text produced by the mounted metrics
sub-application, which this development treats as an opaque external
collaborator. -/
inductive Body where
  | json (fields : List (String × String))
  | metricsText
deriving Repr, DecidableEq

/-- An HTTP response: status code and body. -/
structure Response where
  status : Nat
  body : Body
deriving Repr, DecidableEq

/-- Does `p` fall under the mount path `/metrics` (the mount itself or any
path below it)? -/
def underMetrics (p : String) : Bool :=
  p == "/metrics" || "/metrics/".data.isPrefixOf p.data

/-- The HTTP application of `notification/main.py` (lines 7-20): the
`/metrics` mount is registered first, then `GET /health` and `GET /`;
requests matching no route are unhandled (`none`, surfaced by the
framework as a 404). -/
def notification_app (req : Request) : Option Response :=
  if underMetrics req.path then
    some { status := 200, body := Body.metricsText }
  else if req.method = "GET" ∧ req.path = "/health" then
    some { status := 200, body := Body.json [("status", "healthy")] }
  else if req.method = "GET" ∧ req.path = "/" then
    some { status := 200,
           body := Body.json [("service", "notification"), ("version", "1.0.0")] }
  else none

/-- The HTTP application of the duplicate top-level module `main.py`
(lines 5-19): the same `/metrics` mount followed by the same two GET
routes. -/
def top_app (req : Request) : Option Response :=
  if underMetrics req.path then
    some { status := 200, body := Body.metricsText }
  else if req.method = "GET" ∧ req.path = "/health" then
    some { status := 200, body := Body.json [("status", "healthy")] }
  else if req.method = "GET" ∧ req.path = "/" then
    some { status := 200,
           body := Body.json [("service", "notification"), ("version", "1.0.0")] }
  else none

/-- An observable startup event of an entry point: reading the
environment to build the settings, printing a line to stdout, or starting
the blocking HTTP server bound to a host and port. -/
inductive Event where
  | readEnv
  | printed (line : String)
  | serverStarted (host : String) (port : Int)
deriving Repr, DecidableEq

/-- Recognize the settings-construction event. -/
def isReadEnv : Event → Bool
  | Event.readEnv => true
  | _ => false

/-- The startup line printed by `notification/main.py` line 25. -/
def startupLine (c : Config) : String :=
  "Starting Notification service on " ++ c.server.host ++ ":" ++
    toString c.server.port

/-- The `__main__` block of `notification/main.py` (lines 23-26) as an
event trace: load the settings from the environment; on failure the
process exits with the validation error having emitted nothing further;
on success it prints the startup line and then starts the server on the
loaded host and port. -/
def main_trace (env : Env) : List Event × Option ConfigError :=
  match load_config env with
  | Except.error e => ([Event.readEnv], some e)
  | Except.ok c =>
    ([Event.readEnv, Event.printed (startupLine c),
      Event.serverStarted c.server.host c.server.port], none)

/-- The print statement of `notification/main.py` line 25, acting on the
loaded settings: it reads `config.server.host` and `config.server.port`
and returns the settings value it was given together with the emitted
event. -/
def print_op (c : Config) : Config × Event :=
  (c, Event.printed (startupLine c))

/-- The `uvicorn.run` call of `notification/main.py` line 26, acting on
the loaded settings: it reads the host and port and returns the settings
value it was given together with the server-start event. -/
def serve_op (c : Config) : Config × Event :=
  (c, Event.serverStarted c.server.host c.server.port)

/-- Every operation the entry point performs on the settings object after
`load_config` returns, in program order. -/
def main_ops : List (Config → Config × Event) := [print_op, serve_op]

/-- Run the post-load operations in order, threading the settings value
through each and collecting the emitted events. -/
def run_ops (c : Config) : Config × List Event :=
  main_ops.foldl
    (fun acc op =>
      match op acc.1 with
      | (c2, e) => (c2, acc.2 ++ [e]))
    (c, [])

/-- The observable program state surrounding a call to `load_config`: the
process environment and the stdout log. -/
structure World where
  env : Env
  log : List String
deriving Repr, DecidableEq

/-- `load_config` (config.py lines 20-22) as a state transformer on the
observable program state: its body only constructs `Config()` from reads
of the environment, so the resulting state is the input state and the
result is the pure binding of that environment. -/
def load_config_run (w : World) : Except ConfigError Config × World :=
  (load_config w.env, w)

/-- The `__main__` block of the duplicate top-level `main.py` (lines
22-23) as an event trace over the process environment: it consults no
environment variable, prints nothing, and starts the server on the
hard-coded address `0.0.0.0:8080`. -/
def top_main_trace (_env : Env) : List Event :=
  [Event.serverStarted "0.0.0.0" 8080]

/-- Case-insensitive lookup is determined by the lowercased names and the
values: environments equal after lowercasing every variable name resolve
every lookup identically. -/
theorem lookupEnv_congr (key : String) :
    ∀ e1 e2 : Env,
      e1.map (fun p => (lowerName p.1, p.2)) =
        e2.map (fun p => (lowerName p.1, p.2)) →
      lookupEnv e1 key = lookupEnv e2 key := by
  intro e1
  induction e1 with
  | nil =>
    intro e2 h
    cases e2 with
    | nil => rfl
    | cons b t => exact absurd h (by simp)
  | cons a t ih =>
    intro e2 h
    cases e2 with
    | nil => exact absurd h (by simp)
    | cons b t2 =>
      obtain ⟨k1, v1⟩ := a
      obtain ⟨k2, v2⟩ := b
      rw [List.map_cons, List.map_cons] at h
      injection h with h1 h2
      have hk : lowerName k1 = lowerName k2 := congrArg Prod.fst h1
      have hv : v1 = v2 := congrArg Prod.snd h1
      simp only [lookupEnv]
      rw [hk, hv]
      by_cases hc : lowerName k2 = lowerName key
      · simp [hc]
      · simp [hc, ih t2 h2]

/-- C1: whenever the environment holds no binding for the port variable
`NOTIFICATION_SERVER_PORT` (case-insensitively), or holds one whose value
does not parse as an integer, `load_config` fails with a `ConfigError`
rather than returning a settings object. -/
theorem load_config_fails_without_valid_port (env : Env)
    (h : lookupEnv env server_port_key = none ∨
         ∃ v, lookupEnv env server_port_key = some v ∧ parseInt v = none) :
    ∃ e, load_config env = Except.error e := by
  rcases h with h | ⟨v, hv, hp⟩
  · exact ⟨ConfigError.missingField "server.port", by simp [load_config, h]⟩
  · exact ⟨ConfigError.invalidInt "server.port" v, by simp [load_config, hv, hp]⟩

/-- Witness for C1: in the empty environment the port variable is absent
and `load_config` fails. -/
theorem load_config_fails_without_valid_port_witness :
    (lookupEnv ([] : Env) server_port_key = none ∨
     ∃ v, lookupEnv ([] : Env) server_port_key = some v ∧ parseInt v = none) ∧
    ∃ e, load_config [] = Except.error e :=
  ⟨Or.inl rfl, load_config_fails_without_valid_port [] (Or.inl rfl)⟩

/-- C2: when no host variable is set, the loaded host is the default
`"0.0.0.0"`: if the port variable is set to a string parsing to `p`,
loading succeeds with `{host := "0.0.0.0", port := p}`; and the port has
no default — with the port variable also absent, loading fails. -/
theorem load_config_host_default (env : Env) (v : String) (p : Int)
    (hhost : lookupEnv env server_host_key = none) :
    (lookupEnv env server_port_key = some v → parseInt v = some p →
      load_config env =
        Except.ok { server := { host := "0.0.0.0", port := p } }) ∧
    (lookupEnv env server_port_key = none →
      load_config env = Except.error (ConfigError.missingField "server.port")) := by
  constructor
  · intro h1 h2
    simp [load_config, hhost, h1, h2]
  · intro h1
    simp [load_config, h1]

/-- Witness for C2: with only `NOTIFICATION_SERVER_PORT=9090` set, the
loaded settings are `{host := "0.0.0.0", port := 9090}`. -/
theorem load_config_host_default_witness :
    lookupEnv [("NOTIFICATION_SERVER_PORT", "9090")] server_host_key = none ∧
    load_config [("NOTIFICATION_SERVER_PORT", "9090")] =
      Except.ok { server := { host := "0.0.0.0", port := 9090 } } :=
  ⟨rfl,
   (load_config_host_default [("NOTIFICATION_SERVER_PORT", "9090")]
      "9090" 9090 rfl).1 rfl rfl⟩

/-- C3: with the host variable bound to `127.0.0.1` and the port variable
bound to `9090`, loading succeeds with exactly those settings; and the
variables are consulted under the fixed head `NOTIFICATION_` with nested
delimiter `_`, so the port is read from `notification_server_port`
(matched case-insensitively) binding the nested field `server.port`. -/
theorem load_config_explicit_host_port (env : Env)
    (hh : lookupEnv env server_host_key = some "127.0.0.1")
    (hp : lookupEnv env server_port_key = some "9090") :
    load_config env =
      Except.ok { server := { host := "127.0.0.1", port := 9090 } } ∧
    server_port_key = "notification_server_port" ∧
    server_host_key = "notification_server_host" := by
  refine ⟨?_, rfl, rfl⟩
  simp [load_config, hh, hp]
  rfl

/-- Witness for C3: the concrete environment with both variables set. -/
theorem load_config_explicit_host_port_witness :
    lookupEnv [("NOTIFICATION_SERVER_HOST", "127.0.0.1"),
               ("NOTIFICATION_SERVER_PORT", "9090")] server_host_key =
      some "127.0.0.1" ∧
    load_config [("NOTIFICATION_SERVER_HOST", "127.0.0.1"),
                 ("NOTIFICATION_SERVER_PORT", "9090")] =
      Except.ok { server := { host := "127.0.0.1", port := 9090 } } :=
  ⟨rfl,
   (load_config_explicit_host_port
      [("NOTIFICATION_SERVER_HOST", "127.0.0.1"),
       ("NOTIFICATION_SERVER_PORT", "9090")] rfl rfl).1⟩

/-- C4: every `GET /health` request — whatever its headers and body —
is answered with status 200 and exact JSON body
`{"status": "healthy"}`; the handler is a total function of the request
with no failure path. -/
theorem health_check_always_healthy (headers : List (String × String))
    (body : String) :
    notification_app
        { method := "GET", path := "/health", headers := headers, body := body } =
      some { status := 200, body := Body.json [("status", "healthy")] } := rfl

/-- C5: every `GET /` request — whatever its headers and body — is
answered with status 200 and exact JSON body
`{"service": "notification", "version": "1.0.0"}`. -/
theorem root_returns_service_metadata (headers : List (String × String))
    (body : String) :
    notification_app
        { method := "GET", path := "/", headers := headers, body := body } =
      some { status := 200,
             body := Body.json [("service", "notification"), ("version", "1.0.0")] } := rfl

/-- C6: the settings object is constructed exactly once per process run —
the entry-point trace contains exactly one settings-construction event —
and it is immutable thereafter: threading the loaded settings through
every post-load operation of the program, in order, returns it
unchanged. -/
theorem config_loaded_once_and_immutable (env : Env) (c : Config) :
    ((main_trace env).1.filter isReadEnv).length = 1 ∧ (run_ops c).1 = c := by
  constructor
  · cases h : load_config env <;> simp [main_trace, h, isReadEnv]
  · rfl

/-- C7: when loading succeeds with settings `c`, the entry point's trace
is exactly: read the environment, then print the startup line naming the
resolved bind address, then start the server bound to `c`'s host and
port — the print strictly precedes the server start, and the server uses
the loaded values. -/
theorem main_sequence_in_order (env : Env) (c : Config)
    (h : load_config env = Except.ok c) :
    main_trace env =
      ([Event.readEnv, Event.printed (startupLine c),
        Event.serverStarted c.server.host c.server.port], none) := by
  simp [main_trace, h]

/-- Witness for C7: with `NOTIFICATION_SERVER_PORT=9090`, the trace is
read-env, then the startup line, then the server start on
`0.0.0.0:9090`. -/
theorem main_sequence_in_order_witness :
    load_config [("NOTIFICATION_SERVER_PORT", "9090")] =
      Except.ok { server := { host := "0.0.0.0", port := 9090 } } ∧
    main_trace [("NOTIFICATION_SERVER_PORT", "9090")] =
      ([Event.readEnv,
        Event.printed "Starting Notification service on 0.0.0.0:9090",
        Event.serverStarted "0.0.0.0" 9090], none) :=
  ⟨rfl,
   main_sequence_in_order [("NOTIFICATION_SERVER_PORT", "9090")]
     { server := { host := "0.0.0.0", port := 9090 } } rfl⟩

/-- C8: variable names are matched case-insensitively: two environments
that agree after lowercasing every variable name produce the same
`load_config` result — the same settings on success, the same error on
failure — whatever casing each name uses. -/
theorem load_config_case_insensitive (e1 e2 : Env)
    (h : e1.map (fun p => (lowerName p.1, p.2)) =
         e2.map (fun p => (lowerName p.1, p.2))) :
    load_config e1 = load_config e2 := by
  unfold load_config
  rw [lookupEnv_congr server_host_key e1 e2 h,
      lookupEnv_congr server_port_key e1 e2 h]

/-- Witness for C8: `NOTIFICATION_SERVER_PORT` and
`notification_server_port` bind identically. -/
theorem load_config_case_insensitive_witness :
    ([("NOTIFICATION_SERVER_PORT", "9090")] : Env).map
        (fun p => (lowerName p.1, p.2)) =
      ([("notification_server_port", "9090")] : Env).map
        (fun p => (lowerName p.1, p.2)) ∧
    load_config [("NOTIFICATION_SERVER_PORT", "9090")] =
      load_config [("notification_server_port", "9090")] :=
  ⟨rfl,
   load_config_case_insensitive [("NOTIFICATION_SERVER_PORT", "9090")]
     [("notification_server_port", "9090")] rfl⟩

/-- C9: `load_config` has no side effect beyond reading the environment:
as a transformer of the observable program state it returns the state
unchanged — whether the result is a success or a `ConfigError` — and its
result is exactly the pure binding of the input environment. -/
theorem load_config_no_side_effects (w : World) :
    (load_config_run w).2 = w ∧ (load_config_run w).1 = load_config w.env :=
  ⟨rfl, rfl⟩

/-- C10: the duplicate top-level module's application answers every
request exactly as the package module's application does (same three
routes, same responses), while its entry point starts the server on the
hard-coded address `0.0.0.0:8080` for every environment, consulting no
`NOTIFICATION_*` variable. -/
theorem top_level_module_duplicates_app_with_hardcoded_bind :
    (∀ req : Request, top_app req = notification_app req) ∧
    (∀ env : Env, top_main_trace env = [Event.serverStarted "0.0.0.0" 8080]) :=
  ⟨fun _ => rfl, fun _ => rfl⟩

end Notification
